import Mathlib

/-!
Formal model of the orchestration core of the `pdf2ocr` repository.

Each definition is a shallow embedding of a function of the source tree
(`pdf2ocr/ocr.py`, `pdf2ocr/config.py`, `pdf2ocr/state.py`, `pdf2ocr/utils.py`,
`pdf2ocr/logging_config.py`, `pdf2ocr/converters/pdf.py`, `pdf2ocr/main.py`).
External collaborators (the page renderer, the recognition engine, the format
writers) are modelled as oracle parameters, following the collaborator
contracts: the renderer yields exactly the requested page range, in order.
-/

namespace Pdf2ocr

/-! ## Page-batch processor: `extract_text_from_pdf` (`pdf2ocr/ocr.py`, lines 200-322)

The batched branch iterates `batch_start` over Python's
`range(1, total_pages + 1, batch_size)`, renders pages
`[batch_start, min(batch_start + batch_size - 1, total_pages)]`, and writes
each page text at absolute index `page_num` given by
`enumerate(pages_batch, start=batch_start - 1)` into the pre-allocated list
`text_pages = [""] * total_pages`, while appending to `final_text` in
processing order.  The recognition result for 1-based page `p` is the oracle
`ocr p`. -/

/-- `range(1, total_pages + 1, batch_size)` for `batch_size ≥ 1`: Python's
range has `⌈total/B⌉ = (total + B - 1) / B` elements here. -/
def batchStarts (total B : Nat) : List Nat :=
  List.range' 1 ((total + B - 1) / B) B

/-- `batch_end = min(batch_start + batch_size - 1, total_pages)` (ocr.py line 278). -/
def batchEnd (total B s : Nat) : Nat := min (s + B - 1) total

/-- The 1-based page numbers rendered for one batch: the inclusive range
`[batch_start, batch_end]`. -/
def batchPages (total B s : Nat) : List Nat :=
  List.range' s (batchEnd total B s + 1 - s)

/-- All pages in the order the batched loop processes them. -/
def processedPages (total B : Nat) : List Nat :=
  (batchStarts total B).flatMap (batchPages total B)

/-- The 0-based indices of the positional writes `text_pages[page_num] = text`
performed by the batched loop (`page_num` comes from
`enumerate(..., start=batch_start - 1)`). -/
def writeIndices (total B : Nat) : List Nat :=
  (processedPages total B).map (· - 1)

/-- One positional write: `text_pages[page_num] = text` with
`page_num = p - 1` for 1-based page `p`. -/
def writePage (ocr : Nat → String) (arr : List String) (p : Nat) : List String :=
  arr.set (p - 1) (ocr p)

/-- The batched branch of `extract_text_from_pdf` (`batch_size = B`):
returns `( "\n\n".join(final_text), text_pages )`. -/
def extractBatched (ocr : Nat → String) (total B : Nat) : String × List String :=
  (String.intercalate "\n\n" ((processedPages total B).map ocr),
    (processedPages total B).foldl (writePage ocr) (List.replicate total ""))

/-- The unset-batch-size branch of `extract_text_from_pdf`
(`batch_size is None`): all pages are rendered in one pass and
`enumerate(pages_batch)` writes `text_pages[page_num]` for
`page_num = 0 .. total_pages - 1`; the image at 0-based position `i` is
page `i + 1`. -/
def extractAll (ocr : Nat → String) (total : Nat) : String × List String :=
  (String.intercalate "\n\n" ((List.range' 1 total).map ocr),
    (List.range' 1 total).foldl (writePage ocr) (List.replicate total ""))

/-- `extract_text_from_pdf` with its `batch_size` optional argument. -/
def extractTextFromPdf (ocr : Nat → String) (total : Nat) :
    Option Nat → String × List String
  | none => extractAll ocr total
  | some B => extractBatched ocr total B

/-! ### Coverage of the batch partition -/

theorem batchPages_full {total B s : Nat} (hB : 1 ≤ B) (hs : 1 ≤ s)
    (h : s + B - 1 ≤ total) : batchPages total B s = List.range' s B := by
  unfold batchPages batchEnd
  have : min (s + B - 1) total = s + B - 1 := Nat.min_eq_left h
  rw [this]
  congr 1
  omega

theorem batchPages_last {total B s : Nat} (h : total ≤ s + B - 1) :
    batchPages total B s = List.range' s (total + 1 - s) := by
  unfold batchPages batchEnd
  rw [Nat.min_eq_right h]

/-- Batch starts past the last page contribute no pages. -/
theorem flatMap_batchPages_empty (total B : Nat) :
    ∀ n s, total + 1 ≤ s →
      (List.range' s n B).flatMap (batchPages total B) = [] := by
  intro n
  induction n with
  | zero => intro s _; rfl
  | succ m ih =>
    intro s hs
    rw [List.range'_succ, List.flatMap_cons, batchPages_last (by omega)]
    have hzero : total + 1 - s = 0 := by omega
    rw [hzero]
    have := ih (s + B) (by omega)
    simpa using this

/-- Generalized coverage: as long as `n` batches of size `B` starting at `s`
reach past `total`, their concatenated page ranges are exactly the pages
`s .. total`. -/
theorem flatMap_batchPages (total B : Nat) (hB : 1 ≤ B) :
    ∀ n s, 1 ≤ s → total + 1 ≤ s + n * B →
      (List.range' s n B).flatMap (batchPages total B) =
        List.range' s (total + 1 - s) := by
  intro n
  induction n with
  | zero =>
    intro s hs hn
    simp only [List.range', List.flatMap_nil]
    have : total + 1 - s = 0 := by omega
    rw [this]
    rfl
  | succ n ih =>
    intro s hs hn
    have hmul : (n + 1) * B = n * B + B := Nat.succ_mul n B
    rw [List.range'_succ, List.flatMap_cons]
    by_cases hfull : s + B ≤ total + 1
    · rw [batchPages_full hB hs (by omega)]
      rw [ih (s + B) (by omega) (by omega)]
      have happ := List.range'_append s B (total + 1 - (s + B)) 1
      simp only [Nat.one_mul] at happ
      rw [happ]
      congr 1
      omega
    · rw [batchPages_last (by omega)]
      rw [flatMap_batchPages_empty total B n (s + B) (by omega)]
      simp

/-- The number of batch starts times the batch size covers `total`. -/
theorem numBatches_mul_ge (total B : Nat) (hB : 1 ≤ B) :
    total ≤ (total + B - 1) / B * B := by
  have hpos : 0 < B := hB
  have hdm := Nat.div_add_mod (total + B - 1) B
  have hlt : (total + B - 1) % B < B := Nat.mod_lt _ hpos
  have hcomm : B * ((total + B - 1) / B) = (total + B - 1) / B * B :=
    Nat.mul_comm _ _
  omega

/-- Coverage: the batched loop processes exactly the pages `1 .. total`,
in ascending order, each exactly once (the batch ranges are contiguous,
non-overlapping, and cover every page). -/
theorem processedPages_eq_range (total B : Nat) (hB : 1 ≤ B) :
    processedPages total B = List.range' 1 total := by
  unfold processedPages batchStarts
  rw [flatMap_batchPages total B hB ((total + B - 1) / B) 1 (le_refl 1)
    (by have := numBatches_mul_ge total B hB; omega)]
  congr 1

/-- The 0-based write indices are exactly `0, 1, …, total - 1`. -/
theorem writeIndices_eq_range (total B : Nat) (hB : 1 ≤ B) :
    writeIndices total B = List.range total := by
  unfold writeIndices
  rw [processedPages_eq_range total B hB, List.range'_eq_map_range,
    List.map_map]
  have hcomp : ((fun x : Nat => x - 1) ∘ fun x : Nat => 1 + x) = id := by
    funext x
    simp [Function.comp, Nat.add_sub_cancel_left]
  rw [hcomp, List.map_id]

/-! ### The pre-sized array after all positional writes -/

/-- Folding the positional writes for pages `1 .. total` over any array of
sufficient length overwrites exactly the first `total` slots, slot `p - 1`
receiving `ocr p`. -/
theorem foldl_writePage (ocr : Nat → String) :
    ∀ (total : Nat) (arr : List String), total ≤ arr.length →
      (List.range' 1 total).foldl (writePage ocr) arr =
        (List.range' 1 total).map ocr ++ arr.drop total := by
  intro total
  induction total with
  | zero => intro arr _; simp
  | succ n ih =>
    intro arr hlen
    have hconc : List.range' 1 (n + 1) = List.range' 1 n ++ [1 + n] := by
      have := @List.range'_concat 1 1 n
      simpa using this
    rw [hconc, List.foldl_concat, List.map_append, ih arr (by omega)]
    unfold writePage
    have hlenmap : (List.map ocr (List.range' 1 n)).length = n := by simp
    rw [List.set_append]
    have hidx : 1 + n - 1 = n := by omega
    rw [hidx, hlenmap]
    simp only [Nat.lt_irrefl, if_false, Nat.sub_self]
    have hdroplt : 0 < (arr.drop n).length := by
      rw [List.length_drop]
      omega
    rw [List.drop_eq_getElem_cons (by omega : n < arr.length),
      List.set_cons_zero]
    simp [List.append_assoc]

/-- `text_pages` produced by the batched branch: slot `p - 1` holds `ocr p`
for every page `p`, i.e. the array equals the per-page texts in page order. -/
theorem extractBatched_pages (ocr : Nat → String) (total B : Nat) (hB : 1 ≤ B) :
    (extractBatched ocr total B).2 = (List.range' 1 total).map ocr := by
  unfold extractBatched
  rw [processedPages_eq_range total B hB]
  rw [foldl_writePage ocr total (List.replicate total "") (by simp)]
  simp

/-- `text_pages` produced by the unset-batch-size branch. -/
theorem extractAll_pages (ocr : Nat → String) (total : Nat) :
    (extractAll ocr total).2 = (List.range' 1 total).map ocr := by
  unfold extractAll
  rw [foldl_writePage ocr total (List.replicate total "") (by simp)]
  simp

/-- The batched mode and the unset mode return identical results given the
same per-page recognition results. -/
theorem extractBatched_eq_extractAll (ocr : Nat → String) (total B : Nat)
    (hB : 1 ≤ B) : extractBatched ocr total B = extractAll ocr total := by
  unfold extractBatched extractAll
  rw [processedPages_eq_range total B hB]

/-! ### Claim theorems for the page-batch processor -/

/-- C1: for every `total_pages ≥ 0` and `batch_size B ≥ 1`, the batched loop
of `extract_text_from_pdf` processes the pages `1 .. total_pages` in order,
exactly once each (its batch ranges are contiguous, non-overlapping and
covering); its positional writes hit exactly the 0-based indices
`0 .. total_pages - 1` of the pre-sized array, each exactly once and none
outside; and the final array holds each page's text at its absolute page
index. -/
theorem C1_batch_partition_and_positional_writes (ocr : Nat → String)
    (total B : Nat) (hB : 1 ≤ B) :
    processedPages total B = List.range' 1 total
    ∧ writeIndices total B = List.range total
    ∧ (extractBatched ocr total B).2 = (List.range' 1 total).map ocr :=
  ⟨processedPages_eq_range total B hB, writeIndices_eq_range total B hB,
    extractBatched_pages ocr total B hB⟩

theorem C1_batch_partition_and_positional_writes_witness :
    processedPages 5 2 = List.range' 1 5
    ∧ writeIndices 5 2 = List.range 5
    ∧ (extractBatched (fun p => toString p) 5 2).2 =
        (List.range' 1 5).map (fun p => toString p) :=
  C1_batch_partition_and_positional_writes (fun p => toString p) 5 2
    (by decide)

/-- C9: in both modes of `extract_text_from_pdf` (unset batch size, or any
`batch_size ≥ 1`) the combined text equals the per-page list joined with
`"\n\n"` in ascending page order, and the per-page list has length
`total_pages`. -/
theorem C9_combined_text_matches_page_list (ocr : Nat → String) (total : Nat)
    (batchSize : Option Nat) (h : ∀ B ∈ batchSize, 1 ≤ B) :
    (extractTextFromPdf ocr total batchSize).1 =
      String.intercalate "\n\n" (extractTextFromPdf ocr total batchSize).2
    ∧ (extractTextFromPdf ocr total batchSize).2.length = total := by
  cases batchSize with
  | none =>
    have h2 : (extractTextFromPdf ocr total none).2 =
        (List.range' 1 total).map ocr := extractAll_pages ocr total
    refine ⟨?_, ?_⟩
    · rw [h2]
      rfl
    · rw [h2]
      simp
  | some B =>
    have hB : 1 ≤ B := h B rfl
    have h2 : (extractTextFromPdf ocr total (some B)).2 =
        (List.range' 1 total).map ocr := extractBatched_pages ocr total B hB
    refine ⟨?_, ?_⟩
    · rw [h2]
      show String.intercalate "\n\n" ((processedPages total B).map ocr) = _
      rw [processedPages_eq_range total B hB]
    · rw [h2]
      simp

theorem C9_combined_text_matches_page_list_witness :
    ((extractTextFromPdf (fun p => toString p) 3 (some 2)).1 =
      String.intercalate "\n\n" (extractTextFromPdf (fun p => toString p) 3
        (some 2)).2
    ∧ (extractTextFromPdf (fun p => toString p) 3 (some 2)).2.length = 3) :=
  C9_combined_text_matches_page_list (fun p => toString p) 3 (some 2)
    (by intro B hB; cases hB; decide)

/-- C6 counterexample: with `total_pages = 0` and `batch_size = 1`
(so `B ≥ total_pages` and `B ≥ 1`), the batched loop performs zero batches,
not "exactly one batch". -/
theorem C6_counterexample_zero_pages : ¬ (batchStarts 0 1).length = 1 := by
  decide

/-- C6 (amended): for `total_pages ≥ 1` and `B ≥ total_pages` the loop is a
single batch `[1, total_pages]`; for every `B ≥ 1` the batched mode returns
exactly the unset-mode result; `B = 1` gives one batch per page
(`total_pages` batches); `total_pages = 0` gives zero batches and the empty
result, with no error. -/
theorem C6_amended_batch_edge_cases :
    (∀ total B, 1 ≤ total → total ≤ B →
      batchStarts total B = [1] ∧ batchEnd total B 1 = total)
    ∧ (∀ (ocr : Nat → String) total B, 1 ≤ B →
        extractBatched ocr total B = extractAll ocr total)
    ∧ (∀ total, (batchStarts total 1).length = total)
    ∧ (∀ (ocr : Nat → String) B, extractBatched ocr 0 B = ("", [])) := by
  refine ⟨?_, ?_, ?_, ?_⟩
  · intro total B h1 h2
    constructor
    · unfold batchStarts
      have hdiv : (total + B - 1) / B = 1 := by
        apply Nat.div_eq_of_lt_le
        · omega
        · omega
      rw [hdiv]
      rfl
    · unfold batchEnd
      omega
  · intro ocr total B hB
    exact extractBatched_eq_extractAll ocr total B hB
  · intro total
    unfold batchStarts
    simp
  · intro ocr B
    have hstarts : batchStarts 0 B = [] := by
      unfold batchStarts
      match B with
      | 0 => rfl
      | b + 1 =>
        have : (0 + (b + 1) - 1) / (b + 1) = 0 := Nat.div_eq_of_lt (by omega)
        rw [this]
        rfl
    unfold extractBatched processedPages
    rw [hstarts]
    show (String.intercalate "\n\n" ([] : List String), ([] : List String)) =
      ("", [])
    decide

theorem C6_amended_batch_edge_cases_witness :
    (batchStarts 3 5 = [1] ∧ batchEnd 3 5 1 = 3)
    ∧ extractBatched (fun p => toString p) 4 3 =
        extractAll (fun p => toString p) 4
    ∧ (batchStarts 4 1).length = 4
    ∧ extractBatched (fun p => toString p) 0 7 = ("", []) :=
  ⟨C6_amended_batch_edge_cases.1 3 5 (by decide) (by decide),
    C6_amended_batch_edge_cases.2.1 (fun p => toString p) 4 3 (by decide),
    C6_amended_batch_edge_cases.2.2.1 4,
    C6_amended_batch_edge_cases.2.2.2 (fun p => toString p) 7⟩

/-! ## Text filter: `clean_text_portuguese` / `extract_text_from_image`
(`pdf2ocr/ocr.py`, lines 64-138)

`clean_text_portuguese` is `re.sub("[^<allowed>]", "", text)` where the
allowed class is ASCII letters and digits, the listed Portuguese accented
letters, `\s`, and the listed punctuation.  `extract_text_from_image` runs
the external recognition engine (modelled as the oracle input `recognized`)
and applies the filter iff `lang.lower() == "por"`. -/

/-- Python's `\s` on `str` patterns (Py_UNICODE_ISSPACE): ASCII whitespace,
the file/group/record/unit separators, NEL, NBSP and the Unicode space
separators. -/
def isPySpace (c : Char) : Bool :=
  c.toNat == 32 || (9 ≤ c.toNat && c.toNat ≤ 13) ||
  (28 ≤ c.toNat && c.toNat ≤ 31) || c.toNat == 133 || c.toNat == 160 ||
  c.toNat == 5760 || (8192 ≤ c.toNat && c.toNat ≤ 8202) ||
  c.toNat == 8232 || c.toNat == 8233 || c.toNat == 8239 || c.toNat == 8287 ||
  c.toNat == 12288

/-- Membership in the regex character class of `clean_text_portuguese`:
`a-zA-Z0-9`, the Portuguese accented letters, `\s`, and the punctuation
`. , ; : ? ! ( ) [ ] - { } " '` (the last four written by code point). -/
def allowedChar (c : Char) : Bool :=
  (97 ≤ c.toNat && c.toNat ≤ 122) || (65 ≤ c.toNat && c.toNat ≤ 90) ||
  (48 ≤ c.toNat && c.toNat ≤ 57) ||
  "áéíóúàãõâêôçÁÉÍÓÚÀÃÕÂÊÔÇ".toList.contains c ||
  isPySpace c ||
  ".,;:?!()[]-".toList.contains c ||
  c.toNat == 123 || c.toNat == 125 || c.toNat == 34 || c.toNat == 39

/-- `clean_text_portuguese`: removing every character outside the allowed
class is filtering the characters by class membership. -/
def clean_text_portuguese (t : String) : String :=
  ⟨t.data.filter allowedChar⟩

/-- `str.lower()` as a character-wise map (on the language codes involved
only ASCII case matters). -/
def pyLower (s : String) : String := ⟨s.data.map Char.toLower⟩

/-- `extract_text_from_image` after the recognition call: the filter is
applied iff `lang.lower() == "por"`. -/
def extract_text_from_image (recognized lang : String) : String :=
  if pyLower lang == "por" then clean_text_portuguese recognized
  else recognized

/-- C10: the Portuguese filter is applied iff the language code lower-cases
to "por"; the filtered text contains only allowed characters; the filter is
idempotent; any other language code returns the recognized text unchanged. -/
theorem C10_portuguese_filter (t lang : String) :
    (pyLower lang = "por" →
      extract_text_from_image t lang = clean_text_portuguese t)
    ∧ (pyLower lang ≠ "por" → extract_text_from_image t lang = t)
    ∧ (∀ c ∈ (clean_text_portuguese t).data, allowedChar c = true)
    ∧ clean_text_portuguese (clean_text_portuguese t) =
        clean_text_portuguese t := by
  refine ⟨?_, ?_, ?_, ?_⟩
  · intro h
    simp [extract_text_from_image, h]
  · intro h
    unfold extract_text_from_image
    rw [if_neg (by simp [h])]
  · intro c hc
    exact List.of_mem_filter hc
  · show (⟨(t.data.filter allowedChar).filter allowedChar⟩ : String) =
      ⟨t.data.filter allowedChar⟩
    congr 1
    rw [List.filter_filter]
    apply List.filter_congr
    intro a _
    simp

theorem C10_portuguese_filter_witness :
    pyLower "POR" = "por"
    ∧ extract_text_from_image "a©b" "POR" = clean_text_portuguese "a©b"
    ∧ clean_text_portuguese "a©b" = "ab"
    ∧ extract_text_from_image "a©b" "eng" = "a©b" :=
  ⟨by decide, (C10_portuguese_filter "a©b" "POR").1 (by decide), by decide,
    (C10_portuguese_filter "a©b" "eng").2.1 (by decide)⟩

/-! ## Timer (`pdf2ocr/utils.py`, lines 14-31)

`time.perf_counter()` readings are the oracle arguments `now`; a duration is
`now - start_time`.  `stop()` assigns `self.duration` only when it is still
`None`; `__call__` only reads. -/

structure Timer where
  start_time : Nat
  duration : Option Nat

/-- `Timer.__init__` at clock reading `now`. -/
def Timer.init (now : Nat) : Timer := ⟨now, none⟩

/-- `Timer.stop`: stores the duration only if not already stopped, and
returns the stored duration. -/
def Timer.stop (t : Timer) (now : Nat) : Timer × Nat :=
  match t.duration with
  | none => (⟨t.start_time, some (now - t.start_time)⟩, now - t.start_time)
  | some d => (t, d)

/-- `Timer.__call__`: returns the stored duration if stopped, else the
current elapsed time; mutates nothing. -/
def Timer.read (t : Timer) (now : Nat) : Nat :=
  match t.duration with
  | some d => d
  | none => now - t.start_time

inductive TimerOp where
  | stopOp (now : Nat)
  | readOp (now : Nat)

/-- One observation of the timer: a `stop()` call or a read (`__call__`). -/
def Timer.step (t : Timer) : TimerOp → Timer × Nat
  | .stopOp now => t.stop now
  | .readOp now => (t, t.read now)

/-- A sequence of observations, returning the final timer state and every
returned value. -/
def Timer.run (t : Timer) : List TimerOp → Timer × List Nat
  | [] => (t, [])
  | op :: ops =>
    ((t.step op).1.run ops |>.1,
      (t.step op).2 :: ((t.step op).1.run ops).2)

theorem Timer.run_stopped (d : Nat) :
    ∀ (ops : List TimerOp) (t : Timer), t.duration = some d →
      t.run ops = (t, ops.map fun _ => d) := by
  intro ops
  induction ops with
  | nil => intro t _; rfl
  | cons op ops ih =>
    intro t h
    cases op with
    | stopOp now =>
      simp only [Timer.run, Timer.step, Timer.stop, h]
      rw [ih t h]
      simp
    | readOp now =>
      simp only [Timer.run, Timer.step, Timer.read, h]
      rw [ih t h]
      simp

/-- C8: the first `stop()` is authoritative.  After a timer is stopped, its
state carries the stored duration, and every later sequence of `stop()`
calls and reads leaves the state unchanged and returns exactly that stored
duration every time. -/
theorem C8_timer_first_stop_authoritative (t : Timer) (now : Nat)
    (ops : List TimerOp) (h : t.duration = none) :
    ((t.stop now).1).duration = some (t.stop now).2
    ∧ ((t.stop now).1.run ops).1 = (t.stop now).1
    ∧ ((t.stop now).1.run ops).2 = ops.map (fun _ => (t.stop now).2) := by
  have hstop : t.stop now =
      (⟨t.start_time, some (now - t.start_time)⟩, now - t.start_time) := by
    simp [Timer.stop, h]
  rw [hstop]
  have hrun := Timer.run_stopped (now - t.start_time) ops
    ⟨t.start_time, some (now - t.start_time)⟩ rfl
  rw [hrun]
  exact ⟨rfl, rfl, rfl⟩

theorem C8_timer_first_stop_authoritative_witness :
    ((Timer.init 3).stop 10).1.duration = some ((Timer.init 3).stop 10).2
    ∧ (((Timer.init 3).stop 10).1.run
        [TimerOp.readOp 20, TimerOp.stopOp 30]).1 = ((Timer.init 3).stop 10).1
    ∧ (((Timer.init 3).stop 10).1.run
        [TimerOp.readOp 20, TimerOp.stopOp 30]).2 =
        [((Timer.init 3).stop 10).2, ((Timer.init 3).stop 10).2] :=
  C8_timer_first_stop_authoritative (Timer.init 3) 10
    [TimerOp.readOp 20, TimerOp.stopOp 30] rfl

/-! ## Shutdown signal (`pdf2ocr/state.py`; `pdf2ocr/main.py` lines 76-90)

`pdf2ocr/state.py` stores a single `threading.Event`: a boolean flag.
`request_shutdown()` sets it; `force_exit()` merely calls
`request_shutdown()`; `is_shutdown_requested()` reads it.  The interrupt
handler `signal_handler` in `pdf2ocr/main.py` exits the process
(`sys.exit(1)`) on a second interrupt. -/

/-- `request_shutdown()`: sets the event. -/
def request_shutdown (_f : Bool) : Bool := true

/-- `force_exit()`: the body is exactly `request_shutdown()`. -/
def force_exit (f : Bool) : Bool := request_shutdown f

/-- `is_shutdown_requested()`: reads the event. -/
def is_shutdown_requested (f : Bool) : Bool := f

/-- C4 counterexample: applying the force-exit operation to the state in
which shutdown has been requested produces the identical state — the stored
signal has no third value, so force-exit does not produce a state distinct
from ShutdownRequested. -/
theorem C4_counterexample_force_exit_not_distinct :
    force_exit (request_shutdown false) = request_shutdown false := rfl

/-- Process-level states of the interrupt path of `pdf2ocr/main.py`:
`running` (flag unset), `shutdownRequested` (flag set), `exited`
(`sys.exit(1)` performed). -/
inductive ProcState where
  | running
  | shutdownRequested
  | exited
deriving DecidableEq

/-- `signal_handler` (`pdf2ocr/main.py` lines 79-86): first interrupt sets
the flag, a second interrupt while the flag is set exits the process. -/
def signal_handler : ProcState → ProcState
  | .running => .shutdownRequested
  | .shutdownRequested => .exited
  | .exited => .exited

/-- Progress order of the interrupt states. -/
def ProcState.rank : ProcState → Nat
  | .running => 0
  | .shutdownRequested => 1
  | .exited => 2

theorem signal_handler_rank_le (s : ProcState) :
    s.rank ≤ (signal_handler s).rank := by
  cases s <;> simp [signal_handler, ProcState.rank]

/-- C4 (amended): the stored shutdown signal is a boolean flag set
monotonically by `request_shutdown()`, and `force_exit()` is literally
`request_shutdown()` — it yields the same stored state, not a distinct one.
The three-phase behavior lives in the interrupt handler: first interrupt
`running → shutdownRequested`, second interrupt `shutdownRequested →
exited` (immediate process termination), `exited` is distinct from
`shutdownRequested`, and no sequence of interrupts moves the state back
toward `running`. -/
theorem C4_amended_shutdown_state_machine :
    signal_handler .running = .shutdownRequested
    ∧ signal_handler .shutdownRequested = .exited
    ∧ ProcState.exited ≠ ProcState.shutdownRequested
    ∧ (∀ (s : ProcState) (n : Nat), s.rank ≤ (signal_handler^[n] s).rank)
    ∧ (∀ f, force_exit f = request_shutdown f)
    ∧ (∀ f, is_shutdown_requested (request_shutdown f) = true) := by
  refine ⟨rfl, rfl, by decide, ?_, fun f => rfl, fun f => rfl⟩
  intro s n
  induction n generalizing s with
  | zero => simp
  | succ m ih =>
    calc s.rank ≤ (signal_handler s).rank := signal_handler_rank_le s
      _ ≤ (signal_handler^[m] (signal_handler s)).rank := ih (signal_handler s)
      _ = (signal_handler^[m + 1] s).rank := by
          rw [Function.iterate_succ_apply]

theorem C4_amended_shutdown_state_machine_witness :
    ProcState.rank .running ≤
      ProcState.rank (signal_handler^[2] .running)
    ∧ force_exit true = request_shutdown true :=
  ⟨C4_amended_shutdown_state_machine.2.2.2.1 .running 2,
    C4_amended_shutdown_state_machine.2.2.2.2.1 true⟩

/-! ## Configuration validation: `ProcessingConfig.validate`
(`pdf2ocr/config.py`, lines 71-101)

The filesystem is the oracle `isdir`; a raised `ValueError` is the `error`
branch of `Except`.  `validate` mutates the flag fields in this order:
format-selection check, EPUB→DOCX auto-enable, preserve-layout adjustments,
source-directory check, DPI check. -/

structure ProcessingConfig where
  source_dir : String
  dpi : Int
  generate_docx : Bool
  generate_pdf : Bool
  generate_epub : Bool
  generate_html : Bool
  preserve_layout : Bool
deriving DecidableEq

/-- The EPUB auto-correction: `generate_docx = True` when EPUB is requested
without DOCX (config.py lines 81-83). -/
def epubFix (c : ProcessingConfig) : ProcessingConfig :=
  if c.generate_epub && !c.generate_docx then { c with generate_docx := true }
  else c

/-- The preserve-layout adjustments (config.py lines 86-94). -/
def layoutFix (c : ProcessingConfig) : ProcessingConfig :=
  if c.preserve_layout then
    let c1 :=
      if c.generate_docx || c.generate_epub || c.generate_html then
        { c with generate_docx := false, generate_epub := false,
                 generate_html := false }
      else c
    if !c1.generate_pdf then { c1 with generate_pdf := true } else c1
  else c

/-- Character-list test used to model `str.startswith`. -/
def leadMatch : List Char → List Char → Bool
  | [], _ => true
  | _ :: _, [] => false
  | a :: as, b :: bs => a == b && leadMatch as bs

/-- `str.startswith(pre)`. -/
def pyStartsWith (s pre : String) : Bool := leadMatch pre.data s.data

/-- `ProcessingConfig.validate` (config.py lines 71-101). -/
def ProcessingConfig.validate (isdir : String → Bool) (c : ProcessingConfig) :
    Except String ProcessingConfig :=
  if !(c.generate_docx || c.generate_pdf || c.generate_epub ||
      c.generate_html) then
    .error "You must select at least one output format: PDF, DOCX, EPUB, or HTML"
  else if !pyStartsWith (layoutFix (epubFix c)).source_dir "/test/" &&
      !isdir (layoutFix (epubFix c)).source_dir then
    .error ("Source directory not found: " ++ (layoutFix (epubFix c)).source_dir)
  else if (layoutFix (epubFix c)).dpi ≤ 0 then
    .error "DPI must be a positive integer"
  else
    .ok (layoutFix (epubFix c))

theorem layoutFix_epubFix_invariant (c : ProcessingConfig) :
    (layoutFix (epubFix c)).generate_epub = true →
      (layoutFix (epubFix c)).generate_docx = true := by
  rcases c with ⟨src, dpi, d, p, e, h, l⟩
  cases d <;> cases p <;> cases e <;> cases h <;> cases l <;>
    simp [epubFix, layoutFix]

/-- C7: requesting EPUB without DOCX is auto-corrected, not an error: after
a successful `validate()` every configuration with `generate_epub = true`
also has `generate_docx = true`, and with `generate_epub = true` the only
errors `validate()` can raise are the source-directory and DPI errors —
never one caused by the EPUB/DOCX combination. -/
theorem C7_epub_enables_docx (isdir : String → Bool) (c : ProcessingConfig) :
    (∀ c', c.validate isdir = .ok c' →
      c'.generate_epub = true → c'.generate_docx = true)
    ∧ (c.generate_epub = true →
        c.validate isdir = .ok (layoutFix (epubFix c))
        ∨ c.validate isdir =
            .error ("Source directory not found: " ++
              (layoutFix (epubFix c)).source_dir)
        ∨ c.validate isdir = .error "DPI must be a positive integer") := by
  constructor
  · intro c' hok he
    unfold ProcessingConfig.validate at hok
    split at hok
    · cases hok
    · split at hok
      · cases hok
      · split at hok
        · cases hok
        · cases hok
          exact layoutFix_epubFix_invariant c he
  · intro he
    unfold ProcessingConfig.validate
    rw [if_neg (by simp [he])]
    split
    · right; left; rfl
    · split
      · right; right; rfl
      · left; rfl

/-- A concrete configuration requesting EPUB without DOCX. -/
def epubOnlyConfig : ProcessingConfig :=
  { source_dir := "/data", dpi := 400, generate_docx := false,
    generate_pdf := false, generate_epub := true, generate_html := false,
    preserve_layout := false }

theorem C7_epub_enables_docx_witness :
    epubOnlyConfig.validate (fun _ => true) =
      .ok (layoutFix (epubFix epubOnlyConfig))
    ∧ (layoutFix (epubFix epubOnlyConfig)).generate_epub = true
    ∧ (layoutFix (epubFix epubOnlyConfig)).generate_docx = true :=
  ⟨rfl, by decide,
    (C7_epub_enables_docx (fun _ => true) epubOnlyConfig).1
      (layoutFix (epubFix epubOnlyConfig)) rfl (by decide)⟩

/-! ## Worker pool dispatcher: `process_pdfs_with_ocr`
(`pdf2ocr/converters/pdf.py`, lines 864-1020)

All jobs are submitted before the completion loop starts (the
`future_to_file` comprehension).  The loop consumes completions in
completion order; before consuming each it samples
`is_shutdown_requested()` and breaks when set; afterwards the summary block
is always built from the accumulated counters.  The completion order and
each `future.result()` outcome are oracles, as is the sampled shutdown flag
(indexed by the number of completions consumed so far). -/

/-- The 4-tuple returned by a worker job:
`(success, processing_time, error_message, log_messages)`. -/
structure JobResult where
  success : Bool
  time : Nat
  error : Option String
  logs : List (String × String)
deriving DecidableEq

/-- What `future.result()` yields for one document: the job's tuple, or a
pool-level exception (the `except Exception` arm at lines 973-985). -/
inductive Completion where
  | result (r : JobResult)
  | poolError (msg : String)
deriving DecidableEq

/-- The dispatcher's running counters (lines 865-868). -/
structure RunStats where
  completed : Nat
  successful : Nat
  failed : Nat
  errors : List (String × String)
deriving DecidableEq

def initialStats : RunStats := ⟨0, 0, 0, []⟩

/-- Consuming one completion (lines 914-985): `completed` always
increments; a successful result increments `successful`; a failed result
increments `failed` and appends `(filename, error)` when the error is
truthy (non-`None`, non-empty); a pool-level exception increments `failed`
and appends the synthesized error. -/
def consume (st : RunStats) (fn : String) (c : Completion) : RunStats :=
  match c with
  | .result r =>
    if r.success then
      { st with completed := st.completed + 1,
                successful := st.successful + 1 }
    else
      match r.error with
      | some e =>
        if e == "" then
          { st with completed := st.completed + 1, failed := st.failed + 1 }
        else
          { st with completed := st.completed + 1, failed := st.failed + 1,
                    errors := st.errors ++ [(fn, e)] }
      | none =>
        { st with completed := st.completed + 1, failed := st.failed + 1 }
  | .poolError m =>
    { st with completed := st.completed + 1, failed := st.failed + 1,
              errors := st.errors ++
                [(fn, "Error processing " ++ fn ++ ": " ++ m)] }

/-- The completion loop (lines 903-985): before consuming each completion
the shutdown flag is sampled; a set flag breaks out of the loop. -/
def dispatchLoop (shutdown : Nat → Bool) :
    RunStats → List (String × Completion) → RunStats
  | st, [] => st
  | st, (fn, c) :: rest =>
    if shutdown st.completed then st
    else dispatchLoop shutdown (consume st fn c) rest

/-- The error entries one completion contributes. -/
def errEntries (fc : String × Completion) : List (String × String) :=
  match fc.2 with
  | .result r =>
    if r.success then []
    else
      match r.error with
      | some e => if e == "" then [] else [(fc.1, e)]
      | none => []
  | .poolError m =>
    [(fc.1, "Error processing " ++ fc.1 ++ ": " ++ m)]

/-- The summary block (lines 994-1016), including the leading-empty-line
trim.  The two wall-clock lines are formatted from floats; their rendered
text is the oracle `timeLine` / `avgLine`. -/
def summaryLines (timeLine avgLine : String) (st : RunStats) : List String :=
  List.dropWhile (fun l => l == "")
    (["\nProcessing Summary:", "----------------",
      "Files processed: " ++ toString st.completed, timeLine]
      ++ (if st.completed > 0 then [avgLine] else [])
      ++ ["Successful: " ++ toString st.successful,
          "Failed: " ++ toString st.failed]
      ++ (if st.errors.isEmpty then [] else
          ["\nErrors:", "-------"] ++
            st.errors.flatMap (fun pe => ["• " ++ pe.1 ++ ":", "  " ++ pe.2])))

/-- The leading-empty-line trim of the summary block is a no-op: the first
line is never empty. -/
theorem summaryLines_eq (timeLine avgLine : String) (st : RunStats) :
    summaryLines timeLine avgLine st =
      "\nProcessing Summary:" :: "----------------" ::
        ("Files processed: " ++ toString st.completed) :: timeLine ::
        ((if st.completed > 0 then [avgLine] else [])
          ++ ("Successful: " ++ toString st.successful) ::
            ("Failed: " ++ toString st.failed) ::
            (if st.errors.isEmpty then [] else
              "\nErrors:" :: "-------" ::
                st.errors.flatMap
                  (fun pe => ["• " ++ pe.1 ++ ":", "  " ++ pe.2]))) := by
  unfold summaryLines
  simp only [List.cons_append, List.nil_append, List.append_assoc]
  rw [List.dropWhile_cons]
  have hfalse : (("\nProcessing Summary:" : String) == "") = false := by decide
  rw [hfalse]
  simp

theorem consume_completed (st : RunStats) (fn : String) (c : Completion) :
    (consume st fn c).completed = st.completed + 1 := by
  rcases c with r | m
  · unfold consume
    rcases r with ⟨s, t, e, logs⟩
    cases s
    · rcases e with _ | e
      · simp
      · by_cases he : e == ""
        · simp [he]
        · simp [he]
    · simp
  · rfl

theorem consume_sum (st : RunStats) (fn : String) (c : Completion) :
    (consume st fn c).successful + (consume st fn c).failed =
      st.successful + st.failed + 1 := by
  rcases c with r | m
  · unfold consume
    rcases r with ⟨s, t, e, logs⟩
    cases s
    · rcases e with _ | e
      · simp; omega
      · by_cases he : e == ""
        · simp [he]; omega
        · simp [he]; omega
    · simp; omega
  · simp [consume]; omega

theorem consume_errors (st : RunStats) (fn : String) (c : Completion) :
    (consume st fn c).errors = st.errors ++ errEntries (fn, c) := by
  rcases c with r | m
  · unfold consume errEntries
    rcases r with ⟨s, t, e, logs⟩
    cases s
    · rcases e with _ | e
      · simp
      · by_cases he : e == ""
        · simp [he]
        · simp [he]
    · simp
  · simp [consume, errEntries]

/-- Folding `consume` over a completion list. -/
def foldConsume (st : RunStats) (l : List (String × Completion)) : RunStats :=
  l.foldl (fun s fc => consume s fc.1 fc.2) st

theorem foldConsume_completed (l : List (String × Completion)) :
    ∀ st, (foldConsume st l).completed = st.completed + l.length := by
  induction l with
  | nil => intro st; rfl
  | cons fc rest ih =>
    intro st
    show (foldConsume (consume st fc.1 fc.2) rest).completed = _
    rw [ih, consume_completed]
    simp only [List.length_cons]
    omega

theorem foldConsume_sum (l : List (String × Completion)) :
    ∀ st, (foldConsume st l).successful + (foldConsume st l).failed =
      st.successful + st.failed + l.length := by
  induction l with
  | nil => intro st; rfl
  | cons fc rest ih =>
    intro st
    show (foldConsume (consume st fc.1 fc.2) rest).successful +
      (foldConsume (consume st fc.1 fc.2) rest).failed = _
    rw [ih, consume_sum]
    simp only [List.length_cons]
    omega

theorem foldConsume_errors (l : List (String × Completion)) :
    ∀ st, (foldConsume st l).errors = st.errors ++ l.flatMap errEntries := by
  induction l with
  | nil => intro st; simp [foldConsume]
  | cons fc rest ih =>
    intro st
    show (foldConsume (consume st fc.1 fc.2) rest).errors = _
    rw [ih, consume_errors]
    simp

/-- The completion loop consumes exactly the first `k` completions when the
sampled shutdown flag first turns true at sample `k` (or the list is
exhausted at `k`). -/
theorem dispatchLoop_take (shutdown : Nat → Bool) :
    ∀ (l : List (String × Completion)) (k : Nat) (st : RunStats),
      (∀ j, j < k → shutdown (st.completed + j) = false) →
      k ≤ l.length →
      shutdown (st.completed + k) = true ∨ k = l.length →
      dispatchLoop shutdown st l = foldConsume st (l.take k) := by
  intro l
  induction l with
  | nil =>
    intro k st _ hlen _
    have : k = 0 := by simp at hlen; omega
    subst this
    rfl
  | cons fc rest ih =>
    intro k st hfirst hlen hstop
    match k with
    | 0 =>
      rcases hstop with hs | hs
      · show dispatchLoop shutdown st (fc :: rest) = st
        unfold dispatchLoop
        rw [show st.completed + 0 = st.completed from rfl] at hs
        rw [hs]
        rfl
      · exact absurd hs.symm (by simp)
    | k + 1 =>
      have h0 : shutdown st.completed = false := by
        have := hfirst 0 (by omega)
        simpa using this
      show dispatchLoop shutdown st (fc :: rest) =
        foldConsume st (fc :: rest.take k)
      unfold dispatchLoop
      rw [h0]
      show dispatchLoop shutdown (consume st fc.1 fc.2) rest =
        foldConsume (consume st fc.1 fc.2) (rest.take k)
      apply ih k (consume st fc.1 fc.2)
      · intro j hj
        rw [consume_completed]
        have := hfirst (j + 1) (by omega)
        rw [show st.completed + (j + 1) = st.completed + 1 + j by omega] at this
        exact this
      · simpa using hlen
      · rcases hstop with hs | hs
        · left
          rw [consume_completed]
          rw [show st.completed + (k + 1) = st.completed + 1 + k by omega] at hs
          exact hs
        · right
          simpa using hs

/-- C2: if the sampled shutdown flag is unset for the first `k` samples and
set at sample `k` (with `k` no larger than the number of completions), the
dispatcher consumes exactly the first `k` completions and no more, and the
summary built afterwards reports exactly those `k` documents: `completed =
k`, `successful + failed = k`, the error listing is exactly the errors of
the consumed completions, and the summary block contains the line
`Files processed: k`.  (All jobs were already submitted before the loop, so
no submission happens after the flag is seen.) -/
theorem C2_shutdown_keeps_completed_summary (shutdown : Nat → Bool)
    (completions : List (String × Completion)) (k : Nat)
    (timeLine avgLine : String)
    (hk : k ≤ completions.length)
    (hbefore : ∀ j, j < k → shutdown j = false)
    (hat : shutdown k = true) :
    dispatchLoop shutdown initialStats completions =
      foldConsume initialStats (completions.take k)
    ∧ (dispatchLoop shutdown initialStats completions).completed = k
    ∧ (dispatchLoop shutdown initialStats completions).successful +
        (dispatchLoop shutdown initialStats completions).failed = k
    ∧ (dispatchLoop shutdown initialStats completions).errors =
        (completions.take k).flatMap errEntries
    ∧ ("Files processed: " ++ toString k) ∈
        summaryLines timeLine avgLine
          (dispatchLoop shutdown initialStats completions) := by
  have hzero : initialStats.completed = 0 := rfl
  have heq := dispatchLoop_take shutdown completions k initialStats
    (by intro j hj; rw [hzero, Nat.zero_add]; exact hbefore j hj) hk
    (Or.inl (by rw [hzero, Nat.zero_add]; exact hat))
  have hcompleted : (dispatchLoop shutdown initialStats completions).completed
      = k := by
    rw [heq, foldConsume_completed]
    rw [List.length_take]
    show 0 + min k completions.length = k
    omega
  refine ⟨heq, hcompleted, ?_, ?_, ?_⟩
  · rw [heq, foldConsume_sum, List.length_take]
    show 0 + 0 + min k completions.length = k
    omega
  · rw [heq, foldConsume_errors]
    rfl
  · rw [heq] at hcompleted ⊢
    rw [summaryLines_eq, hcompleted]
    simp

/-- A concrete 3-document run used to instantiate the dispatcher theorems. -/
def demoCompletions : List (String × Completion) :=
  [("a.pdf", .result ⟨true, 5, none, []⟩),
   ("b.pdf", .result ⟨false, 0, some "failure B", [("ERROR", "failure B")]⟩),
   ("c.pdf", .result ⟨true, 4, none, []⟩)]

theorem C2_shutdown_keeps_completed_summary_witness :
    dispatchLoop (fun i => decide (2 ≤ i)) initialStats demoCompletions =
      foldConsume initialStats (demoCompletions.take 2)
    ∧ (dispatchLoop (fun i => decide (2 ≤ i)) initialStats
        demoCompletions).completed = 2
    ∧ (dispatchLoop (fun i => decide (2 ≤ i)) initialStats
        demoCompletions).successful +
      (dispatchLoop (fun i => decide (2 ≤ i)) initialStats
        demoCompletions).failed = 2
    ∧ (dispatchLoop (fun i => decide (2 ≤ i)) initialStats
        demoCompletions).errors = (demoCompletions.take 2).flatMap errEntries
    ∧ ("Files processed: " ++ toString 2) ∈
        summaryLines "Total time: 9.00 seconds"
          "Average time per file: 4.50 seconds"
          (dispatchLoop (fun i => decide (2 ≤ i)) initialStats
            demoCompletions) :=
  C2_shutdown_keeps_completed_summary (fun i => decide (2 ≤ i))
    demoCompletions 2 "Total time: 9.00 seconds"
    "Average time per file: 4.50 seconds" (by decide)
    (by intro j hj; simp; omega) (by decide)

/-! ## Console gating of log records: `log_message`
(`pdf2ocr/logging_config.py`, lines 43-120)

A record is always written to the log file when one is configured; the
console decision (lines 77-97) depends on the `quiet` / `summary` arguments
and on the message text. -/

/-- Substring search over character lists (Python's `pat in msg`). -/
def hasSub (pat : List Char) : List Char → Bool
  | [] => leadMatch pat []
  | c :: rest => leadMatch pat (c :: rest) || hasSub pat rest

/-- Python's `pat in msg` for strings. -/
def pyContains (msg pat : String) : Bool := hasSub pat.data msg.data

/-- The console gate of `log_message` (logging_config.py lines 84-97):
in quiet mode only errors print; in summary mode errors, warnings, the
version/language headers and the final summary print; in normal mode
everything prints except messages containing "ebook-convert". -/
def shouldPrint (quiet summaryFlag : Bool) (level msg : String) : Bool :=
  if quiet then level == "ERROR"
  else if summaryFlag then
    level == "ERROR" || level == "WARNING" || pyContains msg "PDF2OCR v" ||
      pyContains msg "Using Tesseract language model:" ||
      pyContains msg "Processing Summary:"
  else !(pyContains msg "ebook-convert")

/-- The observable effect of one `log_message` call. -/
structure LogEffect where
  fileWritten : Bool
  consolePrinted : Bool
deriving DecidableEq

/-- `log_message` (logging_config.py lines 43-120): when a log file or
logger object is provided ("Always log to file if provided", lines 56-75)
the record is written to it unconditionally — independent of the level and
of the `quiet`/`summary` arguments; the console prints the record iff the
gate of lines 84-97 passes. -/
def log_message (hasLogFile quiet summaryFlag : Bool) (level msg : String) :
    LogEffect :=
  { fileWritten := hasLogFile,
    consolePrinted := shouldPrint quiet summaryFlag level msg }

/-- C5 counterexample: in normal mode (quiet and summary both off) the
aggregator's per-document error record for a failed EPUB conversion —
an ERROR-level `log_message` call whose message contains "ebook-convert" —
is suppressed from the console, refuting "the error record is emitted
unsuppressed for every verbosity setting". -/
theorem C5_counterexample_normal_mode_suppression :
    shouldPrint false false "ERROR"
      ("  ✗ Failed: Error in book.pdf during RuntimeError: " ++
        "Failed to convert book to EPUB: ebook-convert reported an error\n")
      = false := by decide

/-- C5 (amended): every `(document, error)` pair of a consumed failure with
truthy error is appended to the run's error list and appears in the final
summary's error listing; whenever a log file is configured, every record —
in particular every error record — is written to it regardless of the
quiet/summary flags; ERROR-level records pass the console gate in quiet
mode and in summary mode regardless of their text, and in normal mode
whenever the message does not contain "ebook-convert" — but a message
containing "ebook-convert" is suppressed from the normal-mode console. -/
theorem C5_amended_errors_surface :
    (∀ (sflag : Bool) (msg : String), shouldPrint true sflag "ERROR" msg = true)
    ∧ (∀ msg : String, shouldPrint false true "ERROR" msg = true)
    ∧ (∀ msg : String, pyContains msg "ebook-convert" = false →
        shouldPrint false false "ERROR" msg = true)
    ∧ (∀ (st : RunStats) (fn e : String) (r : JobResult),
        r.success = false → r.error = some e → (e == "") = false →
        (consume st fn (.result r)).errors = st.errors ++ [(fn, e)])
    ∧ (∀ (st : RunStats) (fn e timeLine avgLine : String),
        (fn, e) ∈ st.errors →
        ("• " ++ fn ++ ":") ∈ summaryLines timeLine avgLine st
        ∧ ("  " ++ e) ∈ summaryLines timeLine avgLine st)
    ∧ (∀ (q sflag : Bool) (level msg : String),
        (log_message true q sflag level msg).fileWritten = true) := by
  refine ⟨fun sflag msg => rfl, fun msg => by simp [shouldPrint],
    ?_, ?_, ?_, fun q sflag level msg => rfl⟩
  · intro msg h
    simp [shouldPrint, h]
  · intro st fn e r hs he hne
    rcases r with ⟨s, t, err, logs⟩
    simp at hs he
    subst hs
    subst he
    simp [consume, hne]
  · intro st fn e timeLine avgLine hmem
    have hne : st.errors.isEmpty = false := by
      cases herr : st.errors with
      | nil => rw [herr] at hmem; cases hmem
      | cons a l => rfl
    have hbullet : ("• " ++ fn ++ ":") ∈
        st.errors.flatMap (fun pe => ["• " ++ pe.1 ++ ":", "  " ++ pe.2]) :=
      List.mem_flatMap.mpr ⟨(fn, e), hmem, by simp⟩
    have hline : ("  " ++ e) ∈
        st.errors.flatMap (fun pe => ["• " ++ pe.1 ++ ":", "  " ++ pe.2]) :=
      List.mem_flatMap.mpr ⟨(fn, e), hmem, by simp⟩
    have hif : (if st.errors.isEmpty then ([] : List String) else
        "\nErrors:" :: "-------" :: st.errors.flatMap
          (fun pe => ["• " ++ pe.1 ++ ":", "  " ++ pe.2])) =
        "\nErrors:" :: "-------" :: st.errors.flatMap
          (fun pe => ["• " ++ pe.1 ++ ":", "  " ++ pe.2]) := by
      simp [hne]
    constructor
    · rw [summaryLines_eq]
      refine List.mem_cons_of_mem _ (List.mem_cons_of_mem _
        (List.mem_cons_of_mem _ (List.mem_cons_of_mem _
          (List.mem_append_right _ (List.mem_cons_of_mem _
            (List.mem_cons_of_mem _ ?_))))))
      rw [hif]
      exact List.mem_cons_of_mem _ (List.mem_cons_of_mem _ hbullet)
    · rw [summaryLines_eq]
      refine List.mem_cons_of_mem _ (List.mem_cons_of_mem _
        (List.mem_cons_of_mem _ (List.mem_cons_of_mem _
          (List.mem_append_right _ (List.mem_cons_of_mem _
            (List.mem_cons_of_mem _ ?_))))))
      rw [hif]
      exact List.mem_cons_of_mem _ (List.mem_cons_of_mem _ hline)

theorem C5_amended_errors_surface_witness :
    shouldPrint false false "ERROR" "  ✗ Failed: Error in a.pdf during OCRError: boom\n" = true
    ∧ (consume initialStats "a.pdf"
        (.result ⟨false, 0, some "boom", []⟩)).errors = [("a.pdf", "boom")]
    ∧ ("• a.pdf:") ∈ summaryLines "t" "a" ⟨1, 0, 1, [("a.pdf", "boom")]⟩
    ∧ ("  boom") ∈ summaryLines "t" "a" ⟨1, 0, 1, [("a.pdf", "boom")]⟩
    ∧ (log_message true true false "ERROR"
        "  ✗ Failed: boom\n").fileWritten = true :=
  ⟨(C5_amended_errors_surface).2.2.1
      "  ✗ Failed: Error in a.pdf during OCRError: boom\n" (by decide),
    (C5_amended_errors_surface).2.2.2.1 initialStats "a.pdf" "boom"
      ⟨false, 0, some "boom", []⟩ rfl rfl (by decide),
    ((C5_amended_errors_surface).2.2.2.2.1 ⟨1, 0, 1, [("a.pdf", "boom")]⟩
      "a.pdf" "boom" "t" "a" (by simp)).1,
    ((C5_amended_errors_surface).2.2.2.2.1 ⟨1, 0, 1, [("a.pdf", "boom")]⟩
      "a.pdf" "boom" "t" "a" (by simp)).2,
    (C5_amended_errors_surface).2.2.2.2.2 true false "ERROR"
      "  ✗ Failed: boom\n"⟩

/-! ## Per-document job: `process_single_pdf`
(`pdf2ocr/converters/pdf.py`, lines 635-741)

The function first calls `setup_logging(config.log_path, config.quiet,
is_worker=True)` (line 648) — this call sits *before* the `try:` at line
651, so an exception raised there (for instance `os.makedirs` or `open`
failing on the configured log path) propagates out of
`process_single_pdf`.  The body then runs text extraction and each
requested writer inside the `try`; the `except Exception` arm at lines
738-741 converts any raised exception `e` into
`(False, 0, f"Error in {filename} during {e.__class__.__name__}: {str(e)}",
log_messages + [that error])`.  Each external stage either returns a
duration or raises; a raised Python exception is modelled as `ErrInfo`
(exception class name, message).  `convert_docx_to_epub` returns
`(success, duration, output)`; on `success = False` the body raises
`RuntimeError(f"Failed to convert {base_name} to EPUB: {output}")`. -/

/-- A Python exception: class name and message. -/
structure ErrInfo where
  cls : String
  msg : String
deriving DecidableEq

/-- The outcomes of the external calls made by one job, including the
`setup_logging` call that precedes the failure boundary. -/
structure StageEnv where
  setupLogging : Except ErrInfo Unit
  extractText : Except ErrInfo Nat
  savePdf : Except ErrInfo Nat
  saveDocx : Except ErrInfo Nat
  saveHtml : Except ErrInfo Nat
  epubConv : Except ErrInfo (Bool × Nat × String)

/-- The error message format of the failure boundary (line 739). -/
def errMsg (filename : String) (e : ErrInfo) : String :=
  "Error in " ++ filename ++ " during " ++ e.cls ++ ": " ++ e.msg

/-- One conditional stage of the job body: skipped when its format flag is
off; on success appends its log record and adds its duration to
`total_time`; a raised exception aborts the body carrying the log records
accumulated so far. -/
def stageStep (flag : Bool) (stage : Except ErrInfo Nat)
    (line : Nat → String) :
    Except (ErrInfo × List (String × String))
        (List (String × String) × Nat) →
      Except (ErrInfo × List (String × String))
        (List (String × String) × Nat)
  | .error p => .error p
  | .ok (logs, tt) =>
    if flag then
      match stage with
      | .error e => .error (e, logs)
      | .ok t => .ok (logs ++ [("INFO", line t)], tt + t)
    else .ok (logs, tt)

/-- The EPUB stage: a failed conversion raises `RuntimeError` (lines
713-727). -/
def epubStage (base : String) (conv : Except ErrInfo (Bool × Nat × String)) :
    Except ErrInfo Nat :=
  match conv with
  | .error e => .error e
  | .ok (success, t, output) =>
    if success then .ok t
    else .error ⟨"RuntimeError",
      "Failed to convert " ++ base ++ " to EPUB: " ++ output⟩

/-- The job body inside the `try`: extraction, then the PDF, DOCX, HTML and
EPUB stages in source order, each gated by its config flag. -/
def jobBody (base : String) (cfg : ProcessingConfig) (env : StageEnv) :
    Except (ErrInfo × List (String × String))
      (List (String × String) × Nat) :=
  stageStep cfg.generate_epub (epubStage base env.epubConv)
    (fun t => "    EPUB created in " ++ toString t ++ " seconds")
    (stageStep cfg.generate_html env.saveHtml
      (fun t => "    HTML created in " ++ toString t ++ " seconds")
      (stageStep cfg.generate_docx env.saveDocx
        (fun t => "    DOCX created in " ++ toString t ++ " seconds")
        (stageStep cfg.generate_pdf env.savePdf
          (fun t => "    PDF created in " ++ toString t ++ " seconds")
          (match env.extractText with
           | .error e => .error (e, [])
           | .ok t =>
             .ok ([("INFO",
               "    Text extracted in " ++ toString t ++ " seconds")], t)))))

/-- The `try`/`except` part of `process_single_pdf` (lines 651-741): the
body wrapped in the failure boundary, total into the 4-tuple `JobResult`. -/
def jobBoundary (filename base : String) (cfg : ProcessingConfig)
    (env : StageEnv) : JobResult :=
  match jobBody base cfg env with
  | .ok (logs, tt) =>
    { success := true, time := tt, error := none, logs := logs }
  | .error (e, logs) =>
    { success := false, time := 0, error := some (errMsg filename e),
      logs := logs ++ [("ERROR", errMsg filename e)] }

/-- `process_single_pdf` in full: the `setup_logging` call at line 648 runs
before the failure boundary is established, so an exception raised by it
propagates out of the function (the `.error` case); only then does the
guarded body run. -/
def process_single_pdf (filename base : String) (cfg : ProcessingConfig)
    (env : StageEnv) : Except ErrInfo JobResult :=
  match env.setupLogging with
  | .error e => .error e
  | .ok _ => .ok (jobBoundary filename base cfg env)

/-- A concrete job configuration (PDF output only). -/
def jobCfg : ProcessingConfig :=
  { source_dir := "/data", dpi := 400, generate_docx := false,
    generate_pdf := true, generate_epub := false, generate_html := false,
    preserve_layout := false }

/-- A run of the job whose `setup_logging` call raises. -/
def envSetupFail : StageEnv :=
  { setupLogging := .error ⟨"OSError", "cannot open log file"⟩,
    extractText := .ok 3, savePdf := .ok 1, saveDocx := .ok 1,
    saveHtml := .ok 1, epubConv := .ok (true, 1, "") }

/-- A run of the job whose PDF writer raises (logging setup fine). -/
def envPdfFail : StageEnv :=
  { setupLogging := .ok (), extractText := .ok 3,
    savePdf := .error ⟨"OSError", "disk full"⟩, saveDocx := .ok 1,
    saveHtml := .ok 1, epubConv := .ok (true, 1, "") }

/-- C3 counterexample: when the `setup_logging` call raises (it sits before
the `try:` of `process_single_pdf`, converters/pdf.py line 648 versus 651),
the exception escapes the job instead of being converted into a
`JobResult` — refuting "always returns a 4-tuple and never raises past its
own boundary". -/
theorem C3_counterexample_logging_setup_escapes :
    process_single_pdf "a.pdf" "a" jobCfg envSetupFail =
      Except.error ⟨"OSError", "cannot open log file"⟩ := rfl

/-- C3 (amended): provided the logging-setup call returns normally, the job
always yields a `JobResult` 4-tuple and no exception escapes: either it
succeeds with no error, or some stage inside the boundary raised `e` and
the result is `success = false` with the error message naming the document
and the exception class, that message also being appended to the returned
log records.  A recognition failure, or a failure of an enabled writer,
produces exactly the failure result carrying that stage's exception.  A
logging-setup failure, however, escapes the job. -/
theorem C3_amended_job_failure_boundary (filename base : String)
    (cfg : ProcessingConfig) (env : StageEnv) :
    (∀ u, env.setupLogging = .ok u →
      process_single_pdf filename base cfg env =
        .ok (jobBoundary filename base cfg env))
    ∧ (∀ e, env.setupLogging = .error e →
        process_single_pdf filename base cfg env = .error e)
    ∧ (((jobBoundary filename base cfg env).success = true
        ∧ (jobBoundary filename base cfg env).error = none)
      ∨ (∃ e : ErrInfo,
          (jobBoundary filename base cfg env).success = false
          ∧ (jobBoundary filename base cfg env).error =
              some (errMsg filename e)
          ∧ ("ERROR", errMsg filename e) ∈
              (jobBoundary filename base cfg env).logs))
    ∧ (∀ e logs, jobBody base cfg env = .error (e, logs) →
        jobBoundary filename base cfg env =
          { success := false, time := 0, error := some (errMsg filename e),
            logs := logs ++ [("ERROR", errMsg filename e)] })
    ∧ (∀ e, env.extractText = .error e →
        (jobBoundary filename base cfg env).success = false
        ∧ (jobBoundary filename base cfg env).error =
            some (errMsg filename e))
    ∧ (∀ t e, env.extractText = .ok t → cfg.generate_pdf = true →
        env.savePdf = .error e →
        (jobBoundary filename base cfg env).success = false
        ∧ (jobBoundary filename base cfg env).error =
            some (errMsg filename e)) := by
  refine ⟨?_, ?_, ?_, ?_, ?_, ?_⟩
  · intro u hsetup
    simp [process_single_pdf, hsetup]
  · intro e hsetup
    simp [process_single_pdf, hsetup]
  · cases hbody : jobBody base cfg env with
    | ok p =>
      left
      simp [jobBoundary, hbody]
    | error p =>
      right
      refine ⟨p.1, ?_⟩
      simp [jobBoundary, hbody]
  · intro e logs hbody
    simp [jobBoundary, hbody]
  · intro e hex
    have hbody : jobBody base cfg env = .error (e, []) := by
      simp [jobBody, hex, stageStep]
    simp [jobBoundary, hbody]
  · intro t e hex hpdf hsp
    have hbody : jobBody base cfg env =
        .error (e, [("INFO",
          "    Text extracted in " ++ toString t ++ " seconds")]) := by
      simp [jobBody, hex, hpdf, hsp, stageStep]
    simp [jobBoundary, hbody]

theorem C3_amended_job_failure_boundary_witness :
    process_single_pdf "a.pdf" "a" jobCfg envPdfFail =
      .ok (jobBoundary "a.pdf" "a" jobCfg envPdfFail)
    ∧ (jobBoundary "a.pdf" "a" jobCfg envPdfFail).success = false
    ∧ (jobBoundary "a.pdf" "a" jobCfg envPdfFail).error =
        some (errMsg "a.pdf" ⟨"OSError", "disk full"⟩) :=
  ⟨(C3_amended_job_failure_boundary "a.pdf" "a" jobCfg envPdfFail).1 () rfl,
    ((C3_amended_job_failure_boundary "a.pdf" "a" jobCfg
        envPdfFail).2.2.2.2.2 3 ⟨"OSError", "disk full"⟩ rfl rfl rfl).1,
    ((C3_amended_job_failure_boundary "a.pdf" "a" jobCfg
        envPdfFail).2.2.2.2.2 3 ⟨"OSError", "disk full"⟩ rfl rfl rfl).2⟩

end Pdf2ocr
